import Mathlib

/-!
Verification of the wirebalancer routing plane against its specification.

The definitions below are a shallow embedding of the Go source:

* `internal/wireguard` — the tunnel model (`Connection`), the health prober
  (`performHealthCheck`, `checkHealth`), the selection pool
  (`GetHealthyConnection`, `GetRandomHealthyConnection`), the wg-quick
  config parser (`parseWireGuardConfig`) and the `Initialize` boot path.
* `internal/proxy` — the SOCKS5 CONNECT request parser (`getTargetAddress`),
  the reply writer (`sendConnectResponse`) and the per-connection control
  flow (`handleConnectionReply`).
* `main.go` — the startup/exit decision structure (`mainExitCode`).

Machine integers are modelled as `Int` with explicit 32-bit wraparound
(`int32wrap`) where the Go code uses `atomic.Int32`.  Network, clock and
filesystem effects are passed in as explicit parameters (probe outcome,
nanosecond clock value, file contents).
-/

/-- Two's-complement wraparound of an integer into the `int32` range,
modelling Go `int32` arithmetic (`atomic.Int32.Add`, `int32(x)` conversion). -/
def int32wrap (n : ℤ) : ℤ := (n + 2 ^ 31) % 2 ^ 32 - 2 ^ 31

/-- Mutable health state of one tunnel: the fields of `wireguard.Connection`
that the prober writes (`healthy atomic.Bool`, `failureCount atomic.Int32`,
`lastCheck atomic.Int64`). -/
structure ConnState where
  healthy : Bool
  failureCount : ℤ
  lastCheck : ℤ
deriving DecidableEq

/-- State effect of `Manager.checkHealth` on the connection: the Go function
performs the HTTPS probe over the bound interface and (on success) calls
`stats.RecordLatency`, but it writes none of the connection's fields, so as a
`ConnState` transformer it is the identity. -/
def checkHealthStateEffect (s : ConnState) : ConnState := s

/-- The initial health-check round in `Manager.Initialize`: for each
connection it calls `m.checkHealth(conn)` directly (not
`performHealthCheck`), so no connection field is written. -/
def initializeInitialRound (conns : List ConnState) : List ConnState :=
  conns.map checkHealthStateEffect

/-- `Manager.performHealthCheck`: runs `checkHealth`, stores the probe time
into `lastCheck`, then updates `failureCount` and `healthy`.  `probeOk` is
the outcome of the probe (`err == nil`), `now` the value of
`time.Now().Unix()`, `failureThreshold` the manager's configured threshold
(a Go `int`, converted to `int32` at the comparison). -/
def performHealthCheck (failureThreshold : ℤ) (probeOk : Bool) (now : ℤ)
    (s : ConnState) : ConnState :=
  let s0 := checkHealthStateEffect s
  let s1 : ConnState := { s0 with lastCheck := now }
  if probeOk then
    let s2 : ConnState := { s1 with failureCount := 0 }
    if s2.healthy then s2 else { s2 with healthy := true }
  else
    let failures := int32wrap (s1.failureCount + 1)
    let s2 : ConnState := { s1 with failureCount := failures }
    if int32wrap failureThreshold ≤ failures then
      if s2.healthy then { s2 with healthy := false } else s2
    else s2

/-- A run of `n` consecutive probes with the same outcome applied to one
tunnel by the prober. -/
def runProbes (failureThreshold : ℤ) (probeOk : Bool) (now : ℤ) :
    ℕ → ConnState → ConnState
  | 0, s => s
  | n + 1, s =>
      performHealthCheck failureThreshold probeOk now
        (runProbes failureThreshold probeOk now n s)

lemma int32wrap_of_range (n : ℤ) (h1 : -(2 ^ 31) ≤ n) (h2 : n < 2 ^ 31) :
    int32wrap n = n := by
  unfold int32wrap
  omega

example : performHealthCheck 3 false 7 ⟨true, 2, 0⟩ = ⟨false, 3, 7⟩ := by decide
example : performHealthCheck 3 true 9 ⟨false, 2, 0⟩ = ⟨true, 0, 9⟩ := by decide
example : performHealthCheck 3 false 7 ⟨true, 1, 0⟩ = ⟨true, 2, 7⟩ := by decide

/-- Read-time view of one `wireguard.Connection` as seen by the selection
pool: its immutable identity plus the value its atomic `healthy` flag holds
at the moment of the load. -/
structure Conn where
  Index : ℤ
  Name : String
  InterfaceName : String
  healthy : Bool
deriving DecidableEq

/-- `Manager.GetHealthyConnection`: bounds-check the index, then return the
tunnel at that index iff its `healthy` flag is set.  The `none` branch of the
match is unreachable (the bounds check has already passed). -/
def GetHealthyConnection (conns : List Conn) (index : ℤ) : Except String Conn :=
  if index < 0 ∨ (conns.length : ℤ) ≤ index then
    .error ("invalid connection index: " ++ toString index)
  else
    match conns[index.toNat]? with
    | none => .error ("invalid connection index: " ++ toString index)
    | some conn =>
      if ¬ conn.healthy then
        .error ("connection " ++ conn.Name ++ " is not healthy")
      else
        .ok conn

/-- `Manager.GetRandomHealthyConnection`: snapshot the healthy subset in
index order, fail when it is empty, otherwise index it with
`time.Now().UnixNano() % len` (Go `%` is truncated division, `Int.tmod`).
`nanos` is the nanosecond clock value; the `none` branch models the Go
runtime panic a negative index would cause. -/
def GetRandomHealthyConnection (conns : List Conn) (nanos : ℤ) :
    Except String Conn :=
  let healthyConns := conns.filter fun c => c.healthy
  if healthyConns.length = 0 then
    .error "no healthy connections available"
  else
    let idx := (Int.tmod nanos (healthyConns.length : ℤ)).toNat
    match healthyConns[idx]? with
    | some c => .ok c
    | none => .error "index out of range"

/-- Tunnel selection in `proxy.Manager.handleConnection`: listener index `0`
takes any healthy tunnel, listener index `k > 0` asks for tunnel `k - 1`. -/
def selectConnection (conns : List Conn) (nanos index : ℤ) :
    Except String Conn :=
  if index = 0 then GetRandomHealthyConnection conns nanos
  else GetHealthyConnection conns (index - 1)

example :
    GetHealthyConnection [⟨0, "a", "wg0", true⟩] 1 =
      .error "invalid connection index: 1" := rfl
example :
    GetHealthyConnection [⟨0, "a", "wg0", false⟩] 0 =
      .error "connection a is not healthy" := rfl
example :
    GetHealthyConnection [⟨0, "a", "wg0", true⟩] 0 = .ok ⟨0, "a", "wg0", true⟩ :=
  rfl
example :
    GetRandomHealthyConnection [⟨0, "a", "wg0", false⟩] 5 =
      .error "no healthy connections available" := rfl
example :
    GetRandomHealthyConnection
      [⟨0, "a", "wg0", true⟩, ⟨1, "b", "wg1", false⟩, ⟨2, "c", "wg2", true⟩] 5 =
      .ok ⟨2, "c", "wg2", true⟩ := rfl

/-- SOCKS5 protocol constants from `internal/proxy`. -/
def socks5Version : ℕ := 0x05

/-- SOCKS5 CONNECT command byte. -/
def cmdConnect : ℕ := 0x01

/-- SOCKS5 address type: IPv4. -/
def atypIPv4 : ℕ := 0x01

/-- SOCKS5 address type: domain name. -/
def atypDomain : ℕ := 0x03

/-- SOCKS5 address type: IPv6. -/
def atypIPv6 : ℕ := 0x04

/-- SOCKS5 reply code: success. -/
def repSuccess : ℕ := 0x00

/-- SOCKS5 reply code: general failure. -/
def repFailure : ℕ := 0x01

/-- `io.ReadFull conn buf` on a byte stream: consume exactly `n` bytes or
fail when the stream is shorter. -/
def readFull : ℕ → List ℕ → Option (List ℕ × List ℕ)
  | 0, input => some ([], input)
  | _ + 1, [] => none
  | n + 1, b :: rest =>
    match readFull n rest with
    | none => none
    | some (bs, r) => some (b :: bs, r)

/-- Go `string(buf)` on a byte slice, modelled codepoint-per-byte. -/
def stringOfBytes (bs : List ℕ) : String := String.mk (bs.map Char.ofNat)

/-- Lowercase hexadecimal digits of a group value, no leading zeros
(Go `appendHex`). -/
def hexStr (n : ℕ) : String := String.mk (Nat.toDigits 16 n)

/-- Two lowercase hex digits per byte (Go `hexString`). -/
def hexString (bs : List ℕ) : String :=
  String.join (bs.map fun b => String.mk [Nat.digitChar (b / 16 % 16), Nat.digitChar (b % 16)])

/-- Dotted-quad rendering of IPv4 bytes (Go `net.IP.String`, 4-byte case:
`uitoa(p4[0]) + "." + uitoa(p4[1]) + "." + uitoa(p4[2]) + "." + uitoa(p4[3])`). -/
def ipv4Dotted (b : List ℕ) : String :=
  toString (b.getD 0 0) ++ "." ++ toString (b.getD 1 0) ++ "." ++
    toString (b.getD 2 0) ++ "." ++ toString (b.getD 3 0)

/-- Go `net.IP.To4` test for a 16-byte slice: ten zero bytes then
`0xff 0xff`. -/
def isIPv4Mapped (ip : List ℕ) : Bool :=
  ip.take 12 == [0, 0, 0, 0, 0, 0, 0, 0, 0, 0, 255, 255]

/-- Big-endian 16-bit groups of a byte list
(Go `(uint32(p[i])<<8)|uint32(p[i+1])`). -/
def bytePairs : List ℕ → List ℕ
  | a :: b :: rest => (a * 256 + b) :: bytePairs rest
  | _ => []

/-- Scan of Go `net.IP.String`'s zero-run search, in group indices: from
position `i`, measure the zero run `[i, j)`; keep it when it is non-empty
and strictly longer than the best so far, resuming past it, else advance one
group.  `fuel` bounds the recursion (the index strictly increases). -/
def bestRunAux (gs : List ℕ) : ℕ → ℕ → ℤ × ℤ → ℤ × ℤ
  | 0, _, best => best
  | fuel + 1, i, best =>
    if i < gs.length then
      let j := i + ((gs.drop i).takeWhile (fun g => g == 0)).length
      if i < j ∧ best.2 - best.1 < (j : ℤ) - (i : ℤ) then
        bestRunAux gs fuel (j + 1) ((i : ℤ), (j : ℤ))
      else
        bestRunAux gs fuel (i + 1) best
    else best

/-- First longest run of zero groups, `(-1, -1)` when no run of at least two
groups exists (Go: a single 16-bit zero field is never shortened to `::`). -/
def bestZeroRun (gs : List ℕ) : ℤ × ℤ :=
  let best := bestRunAux gs gs.length 0 (-1, -1)
  if best.2 - best.1 ≤ 1 then (-1, -1) else best

/-- Rendering loop of Go `net.IP.String` for IPv6: at the elided run emit
`::` and resume at its end without a separator; elsewhere separate groups
with `:` and emit the group in lowercase hex. -/
def renderAux (gs : List ℕ) (e0 e1 : ℤ) : ℕ → ℕ → String → String
  | 0, _, acc => acc
  | fuel + 1, i, acc =>
    if i < gs.length then
      if (i : ℤ) = e0 then
        if (gs.length : ℤ) ≤ e1 then acc ++ "::"
        else
          renderAux gs e0 e1 fuel (e1.toNat + 1)
            (acc ++ "::" ++ hexStr (gs.getD e1.toNat 0))
      else
        renderAux gs e0 e1 fuel (i + 1)
          ((if 0 < i then acc ++ ":" else acc) ++ hexStr (gs.getD i 0))
    else acc

/-- RFC 5952 rendering of 16 IPv6 bytes (Go `net.IP.String`, 16-byte case). -/
def ipv6String (ip : List ℕ) : String :=
  let gs := bytePairs ip
  let br := bestZeroRun gs
  renderAux gs br.1 br.2 (gs.length + 1) 0 ""

/-- Go `net.IP.String`: dotted quad for 4-byte addresses and IPv4-mapped
16-byte addresses, RFC 5952 text for other 16-byte addresses. -/
def netIPString (ip : List ℕ) : String :=
  if ip.length = 0 then "<nil>"
  else if ip.length = 4 then ipv4Dotted ip
  else if ip.length = 16 ∧ isIPv4Mapped ip then ipv4Dotted (ip.drop 12)
  else if ip.length = 16 then ipv6String ip
  else "?" ++ hexString ip

example : netIPString [93, 184, 216, 34] = "93.184.216.34" := rfl
example : netIPString [0,0,0,0,0,0,0,0,0,0,0,0,0,0,0,1] = "::1" := rfl
example : netIPString [0,0,0,0,0,0,0,0,0,0,0,0,0,0,0,0] = "::" := rfl
example :
    netIPString [0x20,0x01,0x0d,0xb8,0,0,0,0,0,0,0,0,0,0,0,1] = "2001:db8::1" := rfl
example : netIPString [0,0,0,0,0,0,0,0,0,0,255,255,1,2,3,4] = "1.2.3.4" := rfl
example :
    netIPString [0x20,0x01,0x0d,0xb8,0,0,0,1,0,1,0,1,0,1,0,1] =
      "2001:db8:0:1:1:1:1:1" := rfl

/-- `proxy.Manager.getTargetAddress`: read `ver cmd rsv atyp`, check the
version and command bytes, read the address per `atyp`, then the big-endian
port, and return `host:port`. -/
def getTargetAddress (input : List ℕ) : Except String String :=
  match readFull 4 input with
  | none => .error "read request header"
  | some (buf, r1) =>
    if buf.getD 0 0 ≠ socks5Version then
      .error ("invalid version: " ++ toString (buf.getD 0 0))
    else if buf.getD 1 0 ≠ cmdConnect then
      .error ("unsupported command: " ++ toString (buf.getD 1 0))
    else
      let atyp := buf.getD 3 0
      let addrRes : Except String (String × List ℕ) :=
        if atyp = atypIPv4 then
          match readFull 4 r1 with
          | none => .error "read IPv4"
          | some (ipBuf, r2) => .ok (netIPString ipBuf, r2)
        else if atyp = atypDomain then
          match readFull 1 r1 with
          | none => .error "read domain length"
          | some (lenBuf, r2) =>
            match readFull (lenBuf.getD 0 0) r2 with
            | none => .error "read domain"
            | some (domainBuf, r3) => .ok (stringOfBytes domainBuf, r3)
        else if atyp = atypIPv6 then
          match readFull 16 r1 with
          | none => .error "read IPv6"
          | some (ipBuf, r2) => .ok (netIPString ipBuf, r2)
        else .error ("unsupported address type: " ++ toString atyp)
      match addrRes with
      | .error e => .error e
      | .ok (addr, rest2) =>
        match readFull 2 rest2 with
        | none => .error "read port"
        | some (portBuf, _) =>
          .ok (addr ++ ":" ++ toString (portBuf.getD 0 0 * 256 + portBuf.getD 1 0))

/-- `proxy.Manager.sendConnectResponse`: the ten reply bytes written for
reply code `rep` — version, code, reserved, IPv4 address type, bound address
`0.0.0.0`, bound port `0`. -/
def sendConnectResponse (rep : ℕ) : List ℕ :=
  [socks5Version, rep, 0x00, atypIPv4, 0, 0, 0, 0, 0, 0]

/-- SOCKS5 CONNECT reply bytes written to the client by
`proxy.Manager.handleConnection` after the greeting: nothing when the
handshake or the request parse failed, the failure reply when tunnel
selection or the dial failed, the success reply otherwise.  Network effects
enter as parameters: `handshakeOk` is the outcome of `handleHandshake`,
`parseResult` the outcome of `getTargetAddress`, `dialOk` the outcome of
`dialThroughInterface`. -/
def handleConnectionReply (conns : List Conn) (index nanos : ℤ)
    (handshakeOk : Bool) (parseResult : Except String String)
    (dialOk : Bool) : List ℕ :=
  if ¬ handshakeOk then []
  else
    match parseResult with
    | .error _ => []
    | .ok _ =>
      match selectConnection conns nanos index with
      | .error _ => sendConnectResponse repFailure
      | .ok _ =>
        if ¬ dialOk then sendConnectResponse repFailure
        else sendConnectResponse repSuccess

example : getTargetAddress [5, 1, 0, 1, 93, 184, 216, 34, 1, 187] =
    .ok "93.184.216.34:443" := rfl
example : getTargetAddress ([5, 1, 0, 3, 11] ++
    ((("example.com").data).map Char.toNat) ++ [0, 80]) =
    .ok "example.com:80" := rfl
example : getTargetAddress ([5, 1, 0, 4] ++ List.replicate 15 0 ++ [1, 1, 187]) =
    .ok "::1:443" := rfl
example : getTargetAddress [4, 1, 0, 1, 1, 2, 3, 4, 0, 80] =
    .error "invalid version: 4" := rfl
example : getTargetAddress [5, 2, 0, 1, 1, 2, 3, 4, 0, 80] =
    .error "unsupported command: 2" := rfl
example : getTargetAddress [5, 1, 0, 5, 1, 2, 3, 4, 0, 80] =
    .error "unsupported address type: 5" := rfl
example : getTargetAddress [5, 1, 0] = .error "read request header" := rfl
example :
    handleConnectionReply [⟨0, "a", "wg0", true⟩] 1 0 true (.ok "h:1") true =
      [5, 0, 0, 1, 0, 0, 0, 0, 0, 0] := rfl
example :
    handleConnectionReply [⟨0, "a", "wg0", false⟩] 1 0 true (.ok "h:1") true =
      [5, 1, 0, 1, 0, 0, 0, 0, 0, 0] := rfl
example :
    handleConnectionReply [⟨0, "a", "wg0", true⟩] 1 0 true (.error "bad") true =
      [] := rfl

/-- Keys that `wg-quick` understands but `wg setconf` does not
(`interfaceOnlySettings` in `parseWireGuardConfig`). -/
def interfaceOnlySettings : List String :=
  ["Address", "DNS", "MTU", "Table", "PreUp", "PostUp", "PreDown", "PostDown",
   "SaveConfig"]

/-- Go `strings.TrimSpace` (for the ASCII whitespace that occurs in config
files), defined structurally so the kernel can evaluate it. -/
def trimSpace (s : String) : String :=
  ⟨((s.data.dropWhile Char.isWhitespace).reverse.dropWhile
      Char.isWhitespace).reverse⟩

/-- Go `strings.Split` with a one-character separator (used with `\n` for
lines and `,` for `Address` values). -/
def splitOnCharAux (sep : Char) : List Char → List Char → List String
  | [], acc => [⟨acc.reverse⟩]
  | c :: rest, acc =>
    if c = sep then ⟨acc.reverse⟩ :: splitOnCharAux sep rest []
    else splitOnCharAux sep rest (c :: acc)

/-- Go `strings.Split` on a string, one-character separator. -/
def splitOnChar (sep : Char) (s : String) : List String :=
  splitOnCharAux sep s.data []

/-- Go `strings.HasPrefix` with a one-character pattern. -/
def headIs (c : Char) (s : String) : Bool :=
  match s.data with
  | [] => false
  | c0 :: _ => c0 == c

/-- Go `strings.Contains` with a one-character pattern. -/
def containsChar (c : Char) (s : String) : Bool := s.data.contains c

/-- First component of `strings.SplitN(t, "=", 2)`: the text before the
first `=`. -/
def beforeEq (t : String) : String := ⟨t.data.takeWhile fun c => c ≠ '='⟩

/-- Second component of `strings.SplitN(t, "=", 2)`: the text after the
first `=`. -/
def afterEq (t : String) : String := ⟨(t.data.dropWhile fun c => c ≠ '=').drop 1⟩

/-- Tokens of one `Address` value: split on `,`, trim whitespace, keep
non-empty tokens in order (the inner loop of `parseWireGuardConfig`). -/
def parseAddressList (value : String) : List String :=
  ((splitOnChar ',' value).map trimSpace).filter fun a => a ≠ ""

/-- Accumulator of `parseWireGuardConfig`: the filtered config text built so
far, the `Address` tokens collected so far, and whether the scan is inside
the `[Interface]` section. -/
structure WGParseState where
  wgConfig : String
  addresses : List String
  inInterface : Bool
deriving DecidableEq

/-- One iteration of the line loop in `parseWireGuardConfig`.  Section
headers toggle `inInterface` and pass through; comments and blank lines pass
through; inside `[Interface]` an `Address` line is consumed into the token
list and the other `wg-quick`-only keys are dropped; every other line passes
through verbatim with a newline appended.  The key/value split is
`strings.SplitN(trimmedLine, "=", 2)` after a `strings.Contains` guard, so
the split always yields exactly two parts. -/
def processLine (st : WGParseState) (line : String) : WGParseState :=
  let trimmedLine := trimSpace line
  if trimmedLine = "[Interface]" then
    { st with inInterface := true, wgConfig := st.wgConfig ++ line ++ "\n" }
  else if headIs '[' trimmedLine then
    { st with inInterface := false, wgConfig := st.wgConfig ++ line ++ "\n" }
  else if trimmedLine = "" ∨ headIs '#' trimmedLine ∨ headIs ';' trimmedLine then
    { st with wgConfig := st.wgConfig ++ line ++ "\n" }
  else if containsChar '=' trimmedLine then
    let key := trimSpace (beforeEq trimmedLine)
    let value := trimSpace (afterEq trimmedLine)
    if st.inInterface ∧ key = "Address" then
      { st with addresses := st.addresses ++ parseAddressList value }
    else if st.inInterface ∧ key ∈ interfaceOnlySettings then
      st
    else
      { st with wgConfig := st.wgConfig ++ line ++ "\n" }
  else
    { st with wgConfig := st.wgConfig ++ line ++ "\n" }

/-- `Manager.parseWireGuardConfig`: `none` models `os.ReadFile` failing;
otherwise split the text on newlines, run the line loop, and fail when no
`Address` token was collected. -/
def parseWireGuardConfig (file : Option String) :
    Except String (String × List String) :=
  match file with
  | none => .error "read error"
  | some data =>
    let lines := splitOnChar '\n' data
    let st := lines.foldl processLine ⟨"", [], false⟩
    if st.addresses = [] then .error "no Address found in config"
    else .ok (st.wgConfig, st.addresses)

example :
    (splitOnChar '\n'
        "[Interface]\nAddress = 10.0.0.1/24, fd00::1/64\nPrivateKey = abc").length =
      3 := rfl
example :
    parseWireGuardConfig
      (some "[Interface]\nAddress = 10.0.0.1/24, fd00::1/64\nDNS = 1.1.1.1\nPrivateKey = abc\n# c\n\n[Peer]\nEndpoint = 1.2.3.4:51820") =
    .ok ("[Interface]\nPrivateKey = abc\n# c\n\n[Peer]\nEndpoint = 1.2.3.4:51820\n",
      ["10.0.0.1/24", "fd00::1/64"]) := rfl
example :
    parseWireGuardConfig (some "[Interface]\nPrivateKey = abc") =
      .error "no Address found in config" := rfl
example : parseWireGuardConfig none = .error "read error" := rfl

/-- `Manager.Initialize` after the parallel `bringUpConnection` calls: every
provisioning error is drained from the channel and logged as a warning, and
the function returns `nil` unconditionally. -/
def Initialize (provisionErrors : List String) : List String × Option String :=
  (provisionErrors.map (fun e => "Warning during initialization: " ++ e), none)

/-- Startup outcome of one process run, as `main.go` observes it:
whether `config.Load` succeeded, how many tunnels are configured, the
provisioning errors produced by `bringUpConnection`, and the listener ports
whose `net.Listen` failed. -/
structure MainRun where
  configLoaded : Bool
  numTunnels : ℕ
  provisionErrors : List String
  listenerBindFailures : List ℕ
deriving DecidableEq

/-- Exit code of `main`: `log.Fatalf` (exit 1) when `config.Load` fails or
when `Initialize` returns an error; otherwise `main` runs to completion and
returns, exiting 0 — listener bind failures are only logged
(`log.Printf("Failed to start proxy on port %d: %v", ...)`) inside their
goroutines and never terminate the process. -/
def mainExitCode (r : MainRun) : ℕ :=
  if ¬ r.configLoaded then 1
  else
    match (Initialize r.provisionErrors).2 with
    | some _ => 1
    | none => 0

example : mainExitCode ⟨true, 2, ["connection a: failed", "connection b: failed"], []⟩ = 0 := rfl
example : mainExitCode ⟨false, 0, [], []⟩ = 1 := rfl
example : mainExitCode ⟨true, 1, [], [9931]⟩ = 0 := rfl

/-- C1: on a probe success `consecutive_failures` is reset to 0 and the
tunnel is healthy afterwards (in particular an unhealthy tunnel becomes
healthy); on a probe failure `consecutive_failures` is incremented by one,
and the healthy flag turns false exactly when the count has reached the
failure threshold, is unchanged while the count is still below the
threshold, and stays false for an already-unhealthy tunnel. -/
theorem healthCheck_state_machine (th now : ℤ) (s : ConnState)
    (hfc0 : 0 ≤ s.failureCount) (hfc1 : s.failureCount + 1 < 2 ^ 31)
    (hth0 : 0 < th) (hth1 : th < 2 ^ 31) :
    (performHealthCheck th true now s).failureCount = 0 ∧
    (performHealthCheck th true now s).healthy = true ∧
    (performHealthCheck th false now s).failureCount = s.failureCount + 1 ∧
    (s.healthy = true → th ≤ s.failureCount + 1 →
      (performHealthCheck th false now s).healthy = false) ∧
    (s.healthy = true → s.failureCount + 1 < th →
      (performHealthCheck th false now s).healthy = true) ∧
    (s.healthy = false → (performHealthCheck th false now s).healthy = false) := by
  have hw1 : int32wrap (s.failureCount + 1) = s.failureCount + 1 :=
    int32wrap_of_range _ (by omega) hfc1
  have hw2 : int32wrap th = th := int32wrap_of_range _ (by omega) hth1
  unfold performHealthCheck checkHealthStateEffect
  simp only [hw1, hw2]
  refine ⟨?_, ?_, ?_, ?_, ?_, ?_⟩ <;>
    cases hh : s.healthy <;> simp_all <;> split_ifs <;> simp_all

/-- C9: within a run of like probe outcomes the healthy flag changes at most
once.  Starting healthy with a zero failure count, after `j` consecutive
failures the count is exactly `j` and the tunnel is healthy iff `j` is still
below the threshold (so the flag flips exactly at probe number
`failure_threshold` and later failures cause no further transition);
starting unhealthy, after `j` consecutive successes the tunnel is healthy
iff `j ≥ 1` (the flag flips at the first success only). -/
theorem health_run_monotone (th now : ℤ) (s : ConnState)
    (hth0 : 0 < th) (hth1 : th < 2 ^ 31) :
    (s.healthy = true → s.failureCount = 0 →
      ∀ j : ℕ, (j : ℤ) < 2 ^ 31 →
        (runProbes th false now j s).failureCount = (j : ℤ) ∧
        ((runProbes th false now j s).healthy = true ↔ (j : ℤ) < th)) ∧
    (s.healthy = false →
      ∀ j : ℕ, (runProbes th true now j s).healthy = decide (0 < j)) := by
  have hw2 : int32wrap th = th := int32wrap_of_range _ (by omega) hth1
  constructor
  · intro hh hf j
    induction j with
    | zero =>
      intro _
      simp [runProbes, hf, hh, hth0]
    | succ n ih =>
      intro hj
      have hn : (n : ℤ) < 2 ^ 31 := by push_cast at hj ⊢; omega
      obtain ⟨ihf, ihh⟩ := ih hn
      have hw1 : int32wrap ((n : ℤ) + 1) = (n : ℤ) + 1 := by
        refine int32wrap_of_range _ (by omega) (by push_cast at hj ⊢; omega)
      simp only [runProbes, performHealthCheck, checkHealthStateEffect,
        Bool.false_eq_true, if_false, ihf, hw1, hw2]
      by_cases hcase : th ≤ (n : ℤ) + 1 <;>
        cases hrh : (runProbes th false now n s).healthy <;>
          rw [hrh] at ihh <;> simp at ihh <;>
            simp [hcase, hrh] <;> omega
  · intro hh j
    induction j with
    | zero => simpa [runProbes] using hh
    | succ n ih =>
      simp only [runProbes, performHealthCheck, checkHealthStateEffect]
      cases hrh : (runProbes th true now n s).healthy <;> simp_all

/-- Witness for the per-probe state machine at concrete inputs: threshold 3,
a healthy tunnel with 2 accumulated failures. -/
theorem healthCheck_state_machine_witness :
    (performHealthCheck 3 true 7 ⟨true, 2, 0⟩).failureCount = 0 ∧
    (performHealthCheck 3 true 7 ⟨true, 2, 0⟩).healthy = true ∧
    (performHealthCheck 3 false 7 ⟨true, 2, 0⟩).failureCount = (⟨true, 2, 0⟩ : ConnState).failureCount + 1 ∧
    ((⟨true, 2, 0⟩ : ConnState).healthy = true → (3 : ℤ) ≤ (⟨true, 2, 0⟩ : ConnState).failureCount + 1 →
      (performHealthCheck 3 false 7 ⟨true, 2, 0⟩).healthy = false) ∧
    ((⟨true, 2, 0⟩ : ConnState).healthy = true → (⟨true, 2, 0⟩ : ConnState).failureCount + 1 < 3 →
      (performHealthCheck 3 false 7 ⟨true, 2, 0⟩).healthy = true) ∧
    ((⟨true, 2, 0⟩ : ConnState).healthy = false →
      (performHealthCheck 3 false 7 ⟨true, 2, 0⟩).healthy = false) :=
  healthCheck_state_machine 3 7 ⟨true, 2, 0⟩ (by norm_num) (by norm_num)
    (by norm_num) (by norm_num)

/-- Witness for the run-monotonicity theorem: threshold 3, five consecutive
failures from a fresh healthy tunnel, and two consecutive successes from an
unhealthy tunnel. -/
theorem health_run_monotone_witness :
    ((runProbes 3 false 7 5 ⟨true, 0, 0⟩).failureCount = ((5 : ℕ) : ℤ) ∧
      ((runProbes 3 false 7 5 ⟨true, 0, 0⟩).healthy = true ↔ ((5 : ℕ) : ℤ) < 3)) ∧
    (runProbes 3 true 7 2 ⟨false, 4, 0⟩).healthy = decide (0 < 2) :=
  ⟨(health_run_monotone 3 7 ⟨true, 0, 0⟩ (by norm_num) (by norm_num)).1 rfl rfl 5
      (by norm_num),
   (health_run_monotone 3 7 ⟨false, 4, 0⟩ (by norm_num) (by norm_num)).2 rfl 2⟩

/-- C10: an index outside `[0, N)` is rejected by the bounds check with the
"invalid connection index" error before the tunnel slice or the healthy
flag is ever consulted, so no out-of-range index can yield a tunnel or a
"not healthy" error. -/
theorem get_invalid_index (conns : List Conn) (index : ℤ)
    (h : index < 0 ∨ (conns.length : ℤ) ≤ index) :
    GetHealthyConnection conns index =
      .error ("invalid connection index: " ++ toString index) := by
  unfold GetHealthyConnection
  rw [if_pos h]

/-- Witness for the bounds check: a one-tunnel pool probed at indices 5
and -1. -/
theorem get_invalid_index_witness :
    GetHealthyConnection [⟨0, "a", "wg0", true⟩] 5 =
      .error ("invalid connection index: " ++ toString (5 : ℤ)) ∧
    GetHealthyConnection [⟨0, "a", "wg0", true⟩] (-1) =
      .error ("invalid connection index: " ++ toString (-1 : ℤ)) :=
  ⟨get_invalid_index _ 5 (by norm_num),
   get_invalid_index _ (-1) (by norm_num)⟩

/-- C2: a connection accepted on pinned listener `k > 0` selects via
`GetHealthyConnection (k - 1)`, which returns tunnel `k - 1` iff that
tunnel is currently healthy and otherwise fails with the "not healthy"
error; a pinned listener can never produce a tunnel other than its own. -/
theorem pinned_listener_selection (conns : List Conn) (nanos k : ℤ)
    (hk0 : 0 < k) (hk1 : k ≤ (conns.length : ℤ)) :
    selectConnection conns nanos k = GetHealthyConnection conns (k - 1) ∧
    (∀ c, conns[(k - 1).toNat]? = some c →
      (c.healthy = true → selectConnection conns nanos k = .ok c) ∧
      (c.healthy = false → selectConnection conns nanos k =
        .error ("connection " ++ c.Name ++ " is not healthy"))) ∧
    (∀ c, selectConnection conns nanos k = .ok c →
      conns[(k - 1).toNat]? = some c ∧ c.healthy = true) := by
  have hsel : selectConnection conns nanos k = GetHealthyConnection conns (k - 1) := by
    unfold selectConnection
    rw [if_neg (by omega)]
  have hbound : ¬ (k - 1 < 0 ∨ (conns.length : ℤ) ≤ k - 1) := by omega
  refine ⟨hsel, ?_, ?_⟩
  · intro c hc
    constructor
    · intro hh
      rw [hsel]
      unfold GetHealthyConnection
      rw [if_neg hbound, hc]
      simp [hh]
    · intro hh
      rw [hsel]
      unfold GetHealthyConnection
      rw [if_neg hbound, hc]
      simp [hh]
  · intro c hok
    rw [hsel] at hok
    unfold GetHealthyConnection at hok
    rw [if_neg hbound] at hok
    cases hc : conns[(k - 1).toNat]? with
    | none => rw [hc] at hok; cases hok
    | some c0 =>
      rw [hc] at hok
      cases hh : c0.healthy with
      | false => simp [hh] at hok
      | true =>
        simp [hh] at hok
        exact ⟨by rw [hok], by rw [← hok, hh]⟩

/-- Witness for pinned-listener selection: two tunnels, tunnel 0 healthy and
tunnel 1 unhealthy; listener 1 gets tunnel 0, listener 2 gets the
"not healthy" error. -/
theorem pinned_listener_selection_witness :
    selectConnection [⟨0, "a", "wg0", true⟩, ⟨1, "b", "wg1", false⟩] 0 1 =
      .ok ⟨0, "a", "wg0", true⟩ ∧
    selectConnection [⟨0, "a", "wg0", true⟩, ⟨1, "b", "wg1", false⟩] 0 2 =
      .error ("connection " ++ "b" ++ " is not healthy") :=
  ⟨((pinned_listener_selection _ 0 1 (by norm_num) (by norm_num)).2.1
      ⟨0, "a", "wg0", true⟩ rfl).1 rfl,
   ((pinned_listener_selection _ 0 2 (by norm_num) (by norm_num)).2.1
      ⟨1, "b", "wg1", false⟩ rfl).2 rfl⟩

/-- C3: `GetRandomHealthyConnection` snapshots the healthy subset in index
order; it fails with "no healthy connections available" iff that snapshot
is empty, and otherwise returns exactly the snapshot element at position
`nanos mod size`. -/
theorem get_any_selection (conns : List Conn) (nanos : ℤ) (h0 : 0 ≤ nanos) :
    (GetRandomHealthyConnection conns nanos =
        .error "no healthy connections available" ↔
      conns.filter (fun c => c.healthy) = []) ∧
    (∀ c, GetRandomHealthyConnection conns nanos = .ok c ↔
      (conns.filter (fun c => c.healthy))[(nanos %
        ((conns.filter (fun c => c.healthy)).length : ℤ)).toNat]? = some c) := by
  simp only [GetRandomHealthyConnection]
  by_cases hlen : (conns.filter (fun c => c.healthy)).length = 0
  · have hnil : conns.filter (fun c => c.healthy) = [] :=
      List.length_eq_zero.mp hlen
    rw [if_pos hlen]
    constructor
    · simp [hnil]
    · intro c
      simp [hnil]
  · rw [if_neg hlen]
    have hpos : 0 < ((conns.filter (fun c => c.healthy)).length : ℤ) := by
      omega
    have htm : Int.tmod nanos ((conns.filter (fun c => c.healthy)).length : ℤ) =
        nanos % ((conns.filter (fun c => c.healthy)).length : ℤ) :=
      Int.tmod_eq_emod h0 (by omega)
    rw [htm]
    have hidx : (nanos % ((conns.filter (fun c => c.healthy)).length : ℤ)).toNat <
        (conns.filter (fun c => c.healthy)).length := by
      have h1 : 0 ≤ nanos % ((conns.filter (fun c => c.healthy)).length : ℤ) :=
        Int.emod_nonneg nanos (by omega)
      have h2 : nanos % ((conns.filter (fun c => c.healthy)).length : ℤ) <
          ((conns.filter (fun c => c.healthy)).length : ℤ) :=
        Int.emod_lt_of_pos nanos hpos
      omega
    obtain ⟨x, hx⟩ : ∃ x, (conns.filter (fun c => c.healthy))[(nanos %
        ((conns.filter (fun c => c.healthy)).length : ℤ)).toNat]? = some x :=
      ⟨_, List.getElem?_eq_getElem hidx⟩
    rw [hx]
    constructor
    · constructor
      · intro h
        exact Except.noConfusion h
      · intro h
        exact absurd (List.length_eq_zero.mpr h) hlen
    · intro c
      simp

/-- Witness for any-healthy selection: three tunnels with two healthy and
nanosecond clock 5 pick the second healthy tunnel (5 mod 2 = 1); a pool
with no healthy tunnel yields the "no healthy connections" error. -/
theorem get_any_selection_witness :
    GetRandomHealthyConnection
        [⟨0, "a", "wg0", true⟩, ⟨1, "b", "wg1", false⟩, ⟨2, "c", "wg2", true⟩] 5 =
      .ok ⟨2, "c", "wg2", true⟩ ∧
    GetRandomHealthyConnection [⟨1, "b", "wg1", false⟩] 5 =
      .error "no healthy connections available" :=
  ⟨((get_any_selection _ 5 (by norm_num)).2 _).mpr rfl,
   (get_any_selection _ 5 (by norm_num)).1.mpr rfl⟩

/-- C4: after a successfully parsed CONNECT request the client receives
exactly one 10-byte SOCKS5 reply — `05 00 00 01 00 00 00 00 00 00` when
selection and dial succeed, the same bytes with the second byte `0x01` when
selection or dial fails — and an invalid greeting or request framing closes
the connection with no SOCKS5 reply bytes at all. -/
theorem socks5_reply_bytes (conns : List Conn) (index nanos : ℤ)
    (hs : Bool) (pr : Except String String) (dialOk : Bool) :
    (sendConnectResponse repSuccess = [5, 0, 0, 1, 0, 0, 0, 0, 0, 0] ∧
      sendConnectResponse repFailure = [5, 1, 0, 1, 0, 0, 0, 0, 0, 0] ∧
      (sendConnectResponse repSuccess).length = 10 ∧
      sendConnectResponse repFailure = (sendConnectResponse repSuccess).set 1 1) ∧
    (∀ tgt c, hs = true → pr = .ok tgt →
      selectConnection conns nanos index = .ok c → dialOk = true →
      handleConnectionReply conns index nanos hs pr dialOk =
        sendConnectResponse repSuccess) ∧
    (∀ tgt e, hs = true → pr = .ok tgt →
      selectConnection conns nanos index = .error e →
      handleConnectionReply conns index nanos hs pr dialOk =
        sendConnectResponse repFailure) ∧
    (∀ tgt c, hs = true → pr = .ok tgt →
      selectConnection conns nanos index = .ok c → dialOk = false →
      handleConnectionReply conns index nanos hs pr dialOk =
        sendConnectResponse repFailure) ∧
    (hs = false → handleConnectionReply conns index nanos hs pr dialOk = []) ∧
    (∀ e, pr = .error e →
      handleConnectionReply conns index nanos hs pr dialOk = []) := by
  refine ⟨⟨rfl, rfl, rfl, rfl⟩, ?_, ?_, ?_, ?_, ?_⟩
  · intro tgt c hhs hpr hsel hd
    unfold handleConnectionReply
    rw [hhs, hpr, hsel, hd]
    simp
  · intro tgt e hhs hpr hsel
    unfold handleConnectionReply
    rw [hhs, hpr, hsel]
    simp
  · intro tgt c hhs hpr hsel hd
    unfold handleConnectionReply
    rw [hhs, hpr, hsel, hd]
    simp
  · intro hhs
    unfold handleConnectionReply
    rw [hhs]
    simp
  · intro e hpr
    unfold handleConnectionReply
    rw [hpr]
    cases hs <;> simp

/-- Witness for the reply bytes: one healthy tunnel behind listener 1, a
parsed target, and both dial outcomes; a parse failure writes nothing. -/
theorem socks5_reply_bytes_witness :
    handleConnectionReply [⟨0, "a", "wg0", true⟩] 1 0 true (.ok "h:80") true =
      sendConnectResponse repSuccess ∧
    handleConnectionReply [⟨0, "a", "wg0", true⟩] 1 0 true (.ok "h:80") false =
      sendConnectResponse repFailure ∧
    handleConnectionReply [⟨0, "a", "wg0", true⟩] 1 0 true (.error "bad") true =
      [] ∧
    handleConnectionReply [⟨0, "a", "wg0", true⟩] 1 0 false (.ok "h:80") true =
      [] :=
  ⟨(socks5_reply_bytes _ 1 0 true _ true).2.1 "h:80" ⟨0, "a", "wg0", true⟩ rfl
      rfl rfl rfl,
   (socks5_reply_bytes _ 1 0 true _ false).2.2.2.1 "h:80" ⟨0, "a", "wg0", true⟩
      rfl rfl rfl rfl,
   (socks5_reply_bytes _ 1 0 true _ true).2.2.2.2.2 "bad" rfl,
   (socks5_reply_bytes _ 1 0 false _ true).2.2.2.2.1 rfl⟩

lemma readFull_append (xs ys : List ℕ) :
    readFull xs.length (xs ++ ys) = some (xs, ys) := by
  induction xs with
  | nil => rfl
  | cons b rest ih => simp [readFull, ih]

lemma readFull_short (n : ℕ) (input : List ℕ) (h : input.length < n) :
    readFull n input = none := by
  induction n generalizing input with
  | zero => omega
  | succ m ih =>
    cases input with
    | nil => rfl
    | cons b rest =>
      simp only [readFull]
      rw [ih rest (by simpa using Nat.lt_of_succ_lt_succ h)]

lemma gta_short (input : List ℕ) (h : input.length < 4) :
    getTargetAddress input = .error "read request header" := by
  unfold getTargetAddress
  rw [readFull_short 4 input h]

lemma gta_bad_version (v c r a : ℕ) (rest : List ℕ) (hv : v ≠ 5) :
    getTargetAddress (v :: c :: r :: a :: rest) =
      .error ("invalid version: " ++ toString v) := by
  have h4 : readFull 4 (v :: c :: r :: a :: rest) = some ([v, c, r, a], rest) :=
    readFull_append [v, c, r, a] rest
  unfold getTargetAddress
  rw [h4]
  simp [socks5Version, hv]

lemma gta_bad_command (c r a : ℕ) (rest : List ℕ) (hc : c ≠ 1) :
    getTargetAddress (5 :: c :: r :: a :: rest) =
      .error ("unsupported command: " ++ toString c) := by
  have h4 : readFull 4 (5 :: c :: r :: a :: rest) = some ([5, c, r, a], rest) :=
    readFull_append [5, c, r, a] rest
  unfold getTargetAddress
  rw [h4]
  simp [socks5Version, cmdConnect, hc]

lemma gta_bad_atyp (r a : ℕ) (rest : List ℕ)
    (h1 : a ≠ 1) (h3 : a ≠ 3) (h4 : a ≠ 4) :
    getTargetAddress (5 :: 1 :: r :: a :: rest) =
      .error ("unsupported address type: " ++ toString a) := by
  have hrf : readFull 4 (5 :: 1 :: r :: a :: rest) = some ([5, 1, r, a], rest) :=
    readFull_append [5, 1, r, a] rest
  unfold getTargetAddress
  rw [hrf]
  simp [socks5Version, cmdConnect, atypIPv4, atypDomain, atypIPv6, h1, h3, h4]

lemma gta_ipv4 (r b1 b2 b3 b4 p1 p2 : ℕ) (rest : List ℕ) :
    getTargetAddress
        (5 :: 1 :: r :: 1 :: b1 :: b2 :: b3 :: b4 :: p1 :: p2 :: rest) =
      .ok (netIPString [b1, b2, b3, b4] ++ ":" ++ toString (p1 * 256 + p2)) := rfl

lemma gta_ipv6 (r p1 p2 : ℕ) (ip rest : List ℕ) (hip : ip.length = 16) :
    getTargetAddress (5 :: 1 :: r :: 4 :: (ip ++ p1 :: p2 :: rest)) =
      .ok (netIPString ip ++ ":" ++ toString (p1 * 256 + p2)) := by
  have hrf : readFull 16 (ip ++ p1 :: p2 :: rest) = some (ip, p1 :: p2 :: rest) := by
    rw [← hip]
    exact readFull_append ip _
  unfold getTargetAddress
  simp only [readFull]
  rw [hrf]
  rfl

lemma gta_domain (r p1 p2 : ℕ) (dom rest : List ℕ) :
    getTargetAddress
        (5 :: 1 :: r :: 3 :: dom.length :: (dom ++ p1 :: p2 :: rest)) =
      .ok (stringOfBytes dom ++ ":" ++ toString (p1 * 256 + p2)) := by
  have hrf : readFull dom.length (dom ++ p1 :: p2 :: rest) =
      some (dom, p1 :: p2 :: rest) := readFull_append dom _
  have hrf2 : readFull 2 (p1 :: p2 :: rest) = some ([p1, p2], rest) :=
    readFull_append [p1, p2] rest
  unfold getTargetAddress
  simp only [readFull, List.getD_cons_zero]
  rw [hrf]
  rfl

lemma gta_ok_header (v c r a : ℕ) (rest : List ℕ) (out : String)
    (h : getTargetAddress (v :: c :: r :: a :: rest) = .ok out) :
    v = 5 ∧ c = 1 ∧ (a = 1 ∨ a = 3 ∨ a = 4) := by
  by_cases hv : v = 5
  · subst hv
    by_cases hc : c = 1
    · subst hc
      refine ⟨rfl, rfl, ?_⟩
      by_cases h1 : a = 1
      · exact Or.inl h1
      by_cases h3 : a = 3
      · exact Or.inr (Or.inl h3)
      by_cases h4 : a = 4
      · exact Or.inr (Or.inr h4)
      rw [gta_bad_atyp r a rest h1 h3 h4] at h
      cases h
    · rw [gta_bad_command c r a rest hc] at h
      cases h
  · rw [gta_bad_version v c r a rest hv] at h
    cases h

/-- C5: `getTargetAddress` succeeds only on version byte `0x05` with command
`0x01` and address type 1, 3 or 4; it then yields `host:port` with the port
read big-endian from the final two bytes and the host rendered as a dotted
quad (atyp 1), the length-prefixed bytes verbatim (atyp 3, any length), or
the canonical text of the 16 address bytes (atyp 4); any other version,
command, or address-type byte, and any truncated header, is an error. -/
theorem socks5_request_parse :
    (∀ input : List ℕ, input.length < 4 →
      getTargetAddress input = .error "read request header") ∧
    (∀ v c r a : ℕ, ∀ rest : List ℕ, v ≠ 5 →
      getTargetAddress (v :: c :: r :: a :: rest) =
        .error ("invalid version: " ++ toString v)) ∧
    (∀ c r a : ℕ, ∀ rest : List ℕ, c ≠ 1 →
      getTargetAddress (5 :: c :: r :: a :: rest) =
        .error ("unsupported command: " ++ toString c)) ∧
    (∀ r a : ℕ, ∀ rest : List ℕ, a ≠ 1 → a ≠ 3 → a ≠ 4 →
      getTargetAddress (5 :: 1 :: r :: a :: rest) =
        .error ("unsupported address type: " ++ toString a)) ∧
    (∀ r b1 b2 b3 b4 p1 p2 : ℕ, ∀ rest : List ℕ,
      getTargetAddress
          (5 :: 1 :: r :: 1 :: b1 :: b2 :: b3 :: b4 :: p1 :: p2 :: rest) =
        .ok (toString b1 ++ "." ++ toString b2 ++ "." ++ toString b3 ++ "." ++
          toString b4 ++ ":" ++ toString (p1 * 256 + p2))) ∧
    (∀ r p1 p2 : ℕ, ∀ dom rest : List ℕ,
      getTargetAddress
          (5 :: 1 :: r :: 3 :: dom.length :: (dom ++ p1 :: p2 :: rest)) =
        .ok (stringOfBytes dom ++ ":" ++ toString (p1 * 256 + p2))) ∧
    (∀ r p1 p2 : ℕ, ∀ ip rest : List ℕ, ip.length = 16 →
      getTargetAddress (5 :: 1 :: r :: 4 :: (ip ++ p1 :: p2 :: rest)) =
        .ok (netIPString ip ++ ":" ++ toString (p1 * 256 + p2))) ∧
    (∀ v c r a : ℕ, ∀ rest : List ℕ, ∀ out : String,
      getTargetAddress (v :: c :: r :: a :: rest) = .ok out →
      v = 5 ∧ c = 1 ∧ (a = 1 ∨ a = 3 ∨ a = 4)) :=
  ⟨gta_short,
   fun v c r a rest hv => gta_bad_version v c r a rest hv,
   fun c r a rest hc => gta_bad_command c r a rest hc,
   fun r a rest h1 h3 h4 => gta_bad_atyp r a rest h1 h3 h4,
   fun r b1 b2 b3 b4 p1 p2 rest => gta_ipv4 r b1 b2 b3 b4 p1 p2 rest,
   fun r p1 p2 dom rest => gta_domain r p1 p2 dom rest,
   fun r p1 p2 ip rest hip => gta_ipv6 r p1 p2 ip rest hip,
   fun v c r a rest out h => gta_ok_header v c r a rest out h⟩

/-- Witness for the request parser: a rejected version byte, a parsed IPv4
request for 93.184.216.34:443, and a parsed IPv6 request for [::1]:443. -/
theorem socks5_request_parse_witness :
    getTargetAddress [4, 1, 0, 1] = .error ("invalid version: " ++ toString 4) ∧
    getTargetAddress [5, 1, 0, 1, 93, 184, 216, 34, 1, 187] =
      .ok "93.184.216.34:443" ∧
    getTargetAddress (5 :: 1 :: 0 :: 4 :: (List.replicate 15 0 ++ [1] ++ [1, 187])) =
      .ok (netIPString (List.replicate 15 0 ++ [1]) ++ ":" ++ toString (1 * 256 + 187)) ∧
    getTargetAddress [5, 1, 0] = .error "read request header" :=
  ⟨socks5_request_parse.2.1 4 1 0 1 [] (by norm_num),
   socks5_request_parse.2.2.2.2.1 0 93 184 216 34 1 187 [],
   socks5_request_parse.2.2.2.2.2.2.1 0 1 187 (List.replicate 15 0 ++ [1]) []
     (by rfl),
   socks5_request_parse.1 [5, 1, 0] (by norm_num)⟩

/-- C6: the parser fails iff the file is unreadable or no `Address` token
was collected, and otherwise returns the collected tokens with the filtered
config; per line, section headers, comments, blank lines, `[Peer]` content
and unlisted keys pass through verbatim, while `Address` (consumed into
split/trimmed/non-empty tokens, in order) and the other `wg-quick`-only
keys are dropped exactly when they occur inside `[Interface]`. -/
theorem wg_config_parse :
    (parseWireGuardConfig none = .error "read error") ∧
    (∀ data : String,
      (parseWireGuardConfig (some data) = .error "no Address found in config" ↔
        ((splitOnChar '\n' data).foldl processLine ⟨"", [], false⟩).addresses = []) ∧
      (((splitOnChar '\n' data).foldl processLine ⟨"", [], false⟩).addresses ≠ [] →
        parseWireGuardConfig (some data) =
          .ok (((splitOnChar '\n' data).foldl processLine ⟨"", [], false⟩).wgConfig,
            ((splitOnChar '\n' data).foldl processLine ⟨"", [], false⟩).addresses))) ∧
    (∀ st line, trimSpace line = "[Interface]" →
      processLine st line =
        { st with inInterface := true, wgConfig := st.wgConfig ++ line ++ "\n" }) ∧
    (∀ st line, trimSpace line ≠ "[Interface]" →
      headIs '[' (trimSpace line) = true →
      processLine st line =
        { st with inInterface := false, wgConfig := st.wgConfig ++ line ++ "\n" }) ∧
    (∀ st line, trimSpace line ≠ "[Interface]" →
      headIs '[' (trimSpace line) = false →
      (trimSpace line = "" ∨ headIs '#' (trimSpace line) = true ∨
        headIs ';' (trimSpace line) = true) →
      processLine st line = { st with wgConfig := st.wgConfig ++ line ++ "\n" }) ∧
    (∀ st line, trimSpace line ≠ "[Interface]" →
      headIs '[' (trimSpace line) = false →
      trimSpace line ≠ "" → headIs '#' (trimSpace line) = false →
      headIs ';' (trimSpace line) = false →
      (containsChar '=' (trimSpace line) = false →
        processLine st line = { st with wgConfig := st.wgConfig ++ line ++ "\n" }) ∧
      (containsChar '=' (trimSpace line) = true →
        (st.inInterface = true →
          (trimSpace (beforeEq (trimSpace line)) = "Address" →
            processLine st line =
              { st with addresses :=
                  st.addresses ++
                    parseAddressList (trimSpace (afterEq (trimSpace line))) }) ∧
          (trimSpace (beforeEq (trimSpace line)) ≠ "Address" →
            trimSpace (beforeEq (trimSpace line)) ∈ interfaceOnlySettings →
            processLine st line = st) ∧
          (trimSpace (beforeEq (trimSpace line)) ∉ interfaceOnlySettings →
            processLine st line =
              { st with wgConfig := st.wgConfig ++ line ++ "\n" })) ∧
        (st.inInterface = false →
          processLine st line =
            { st with wgConfig := st.wgConfig ++ line ++ "\n" }))) := by
  refine ⟨rfl, ?_, ?_, ?_, ?_, ?_⟩
  · intro data
    constructor
    · simp only [parseWireGuardConfig]
      by_cases hadr :
          ((splitOnChar '\n' data).foldl processLine ⟨"", [], false⟩).addresses = []
      · rw [if_pos hadr]
        simp [hadr]
      · rw [if_neg hadr]
        simp [hadr]
    · intro hadr
      simp only [parseWireGuardConfig]
      rw [if_neg hadr]
  · intro st line h
    simp [processLine, h]
  · intro st line h1 h2
    simp [processLine, h1, h2]
  · intro st line h1 h2 h3
    rcases h3 with h3 | h3 | h3
    · rw [h3] at h2
      simp [processLine, h1, h2, h3]
    · simp [processLine, h1, h2, h3]
    · simp [processLine, h1, h2, h3]
  · intro st line h1 h2 h3 h4 h5
    constructor
    · intro h6
      simp [processLine, h1, h2, h3, h4, h5, h6]
    · intro h6
      constructor
      · intro hi
        refine ⟨?_, ?_, ?_⟩
        · intro hk
          simp [processLine, h1, h2, h3, h4, h5, h6, hi, hk]
        · intro hk hmem
          simp [processLine, h1, h2, h3, h4, h5, h6, hi, hk, hmem]
        · intro hmem
          have hk : trimSpace (beforeEq (trimSpace line)) ≠ "Address" := by
            intro hx
            exact hmem (by rw [hx]; simp [interfaceOnlySettings])
          simp [processLine, h1, h2, h3, h4, h5, h6, hi, hk, hmem]
      · intro hi
        simp [processLine, h1, h2, h3, h4, h5, h6, hi]

/-- Witness for the config parser: a two-section config whose `Address` and
`DNS` lines are consumed or dropped while the rest passes through, plus
single-line checks for an `Address` line, a dropped `DNS` line inside
`[Interface]`, and the same `DNS` line passed through inside `[Peer]`. -/
theorem wg_config_parse_witness :
    parseWireGuardConfig
        (some "[Interface]\nAddress = 10.0.0.1/24, fd00::1/64\nDNS = 1.1.1.1\nPrivateKey = abc\n[Peer]\nEndpoint = 1.2.3.4:51820") =
      .ok ("[Interface]\nPrivateKey = abc\n[Peer]\nEndpoint = 1.2.3.4:51820\n",
        ["10.0.0.1/24", "fd00::1/64"]) ∧
    processLine ⟨"", [], true⟩ "Address = 10.0.0.1/24, fd00::1/64" =
      ⟨"", ["10.0.0.1/24", "fd00::1/64"], true⟩ ∧
    processLine ⟨"", [], true⟩ "DNS = 1.1.1.1" = ⟨"", [], true⟩ ∧
    processLine ⟨"", [], false⟩ "DNS = 1.1.1.1" =
      ⟨"DNS = 1.1.1.1\n", [], false⟩ :=
  ⟨(wg_config_parse.2.1
      "[Interface]\nAddress = 10.0.0.1/24, fd00::1/64\nDNS = 1.1.1.1\nPrivateKey = abc\n[Peer]\nEndpoint = 1.2.3.4:51820").2
      (by decide),
   ((wg_config_parse.2.2.2.2.2 ⟨"", [], true⟩
        "Address = 10.0.0.1/24, fd00::1/64" (by decide) rfl (by decide) rfl
        rfl).2 rfl).1 rfl |>.1 rfl,
   ((wg_config_parse.2.2.2.2.2 ⟨"", [], true⟩ "DNS = 1.1.1.1" (by decide) rfl
        (by decide) rfl rfl).2 rfl).1 rfl |>.2.1 (by decide) (by decide),
   ((wg_config_parse.2.2.2.2.2 ⟨"", [], false⟩ "DNS = 1.1.1.1" (by decide) rfl
        (by decide) rfl rfl).2 rfl).2 rfl⟩

/-- Counterexample to "the process exits non-zero when every tunnel fails
provisioning and when a listener fails to bind": a run with the config
loaded, both of its two tunnels failing provisioning, and a listener bind
failure still exits with code 0, because `Initialize` only logs the
provisioning errors and returns nil, and `main` only logs
`StartProxy` errors. -/
theorem exit_code_all_fail_cex :
    mainExitCode
      ⟨true, 2,
        ["connection wg0: config file error", "connection wg1: config file error"],
        [9931]⟩ = 0 ∧
    (["connection wg0: config file error",
      "connection wg1: config file error"] : List String).length = 2 ∧
    (Initialize
      ["connection wg0: config file error",
       "connection wg1: config file error"]).2 = none :=
  ⟨rfl, rfl, rfl⟩

/-- C7 (amended): the process exits non-zero exactly when the configuration
cannot be loaded; `Initialize` never reports an error upward (provisioning
failures are logged warnings), listener bind failures are logged without
terminating the process, and a run that starts is exit code 0. -/
theorem exit_code_amended (r : MainRun) :
    (mainExitCode r ≠ 0 ↔ r.configLoaded = false) ∧
    (Initialize r.provisionErrors).2 = none := by
  constructor
  · cases hc : r.configLoaded <;> simp [mainExitCode, Initialize, hc]
  · rfl

/-- Counterexample to "last_probe_time is updated for every probe issued
during the process lifetime, including the initial round at startup": the
initial round in `Initialize` calls `checkHealth` directly, which writes no
connection field, so a tunnel whose `lastCheck` is 5 still has `lastCheck` 5
(not the probe time, e.g. 100) after that round. -/
theorem initialize_round_lastCheck_cex :
    (initializeInitialRound [⟨false, 0, 5⟩]).map (fun s => s.lastCheck) = [5] ∧
    (initializeInitialRound [⟨false, 0, 5⟩]).map (fun s => s.lastCheck) ≠
      [100] := by
  constructor
  · rfl
  · intro h
    simp [initializeInitialRound, checkHealthStateEffect] at h

/-- C8 (amended): every probe applied through `performHealthCheck` — all
periodic prober rounds, including the immediate initial round of
`StartHealthChecks` — stores the probe time into `lastCheck` whether the
probe succeeded or failed; the extra round run directly inside `Initialize`
leaves every connection's state (so also `lastCheck`) unchanged. -/
theorem prober_updates_lastCheck :
    (∀ th now : ℤ, ∀ ok : Bool, ∀ s : ConnState,
      (performHealthCheck th ok now s).lastCheck = now) ∧
    (∀ conns : List ConnState, initializeInitialRound conns = conns) := by
  constructor
  · intro th now ok s
    cases ok <;>
      simp [performHealthCheck, checkHealthStateEffect,
        apply_ite ConnState.lastCheck]
  · intro conns
    show List.map (fun s => s) conns = conns
    exact List.map_id' conns
